import Mathlib

/-!
Shallow embedding of `2022-show-and-tell/bpx_lgm50.py`: six correlation
functions for an LG M50 lithium-ion cell and the `parameter_values` table
mapping parameter names to numeric constants or to those functions.

Real-valued formulas are embedded over `ℝ` (`Real.exp`, `Real.tanh`,
real powers `Real.rpow` for the fractional exponents `0.5` and `1.5`).
Table constants are embedded as exact rationals `ℚ` (the source's decimal
literals), so the table and its lookups are computable.  The source stores
the callables themselves as table values; values are embedded as a tagged
sum of a rational constant or an identifier naming one of the six
functions.  The exchange-current-density functions resolve a
maximum-concentration parameter by name from the table at evaluation time
(`pybamm.Parameter`); they are embedded as functions taking the table and
returning `Option ℝ`, `none` being the missing-parameter error.
-/

namespace BpxLgm50

/-- Identifiers for the six correlation callables of the module, used to
record which function object a table entry stores. -/
inductive FuncId
  | electrolyte_diffusivity_Nyman2008
  | electrolyte_conductivity_Nyman2008
  | graphite_LGM50_electrolyte_exchange_current_density_Chen2020
  | nmc_LGM50_electrolyte_exchange_current_density_Chen2020
  | graphite_LGM50_ocp_Chen2020
  | nmc_LGM50_ocp_Chen2020
  deriving DecidableEq, Repr

/-- A value of the parameter table: a numeric constant (a decimal literal
of the source, exact as a rational) or one of the six correlation
functions. -/
inductive ParamValue
  | const : ℚ → ParamValue
  | func : FuncId → ParamValue
  deriving DecidableEq, Repr

/-- `pybamm.constants.R` — the molar gas constant, 8.31446261815324. -/
noncomputable def R : ℝ := 8.31446261815324

/-- `electrolyte_diffusivity_Nyman2008(c_e, T)` — diffusivity of LiPF6 in
EC:EMC (3:7); the temperature argument is accepted but unused. -/
noncomputable def electrolyte_diffusivity_Nyman2008 (c_e T : ℝ) : ℝ :=
  8.794e-11 * (c_e / 1000) ^ 2 - 3.972e-10 * (c_e / 1000) + 4.862e-10

/-- `electrolyte_conductivity_Nyman2008(c_e, T)` — conductivity of LiPF6 in
EC:EMC (3:7); the temperature argument is accepted but unused. -/
noncomputable def electrolyte_conductivity_Nyman2008 (c_e T : ℝ) : ℝ :=
  0.1297 * (c_e / 1000) ^ 3 - 2.51 * (c_e / 1000) ^ (1.5 : ℝ)
    + 3.329 * (c_e / 1000)

/-- The Arrhenius temperature-correction factor
`exp(E_r / constants.R * (1 / 298.15 - 1 / T))` computed inside both
exchange-current-density functions. -/
noncomputable def arrhenius (E_r T : ℝ) : ℝ :=
  Real.exp (E_r / R * (1 / 298.15 - 1 / T))

/-- Resolution of a named parameter against a table, as
`pybamm.Parameter(name)` is resolved at evaluation time: the value of the
first entry with the given key, provided it is a numeric constant. -/
def lookupConst (tbl : List (String × ParamValue)) (name : String) :
    Option ℚ :=
  match tbl.find? (fun p => p.1 == name) with
  | some (_, ParamValue.const q) => some q
  | _ => none

/-- The lookup key used inside the graphite exchange-current-density
function. -/
def negMaxKey : String := "Maximum concentration in negative electrode [mol.m-3]"

/-- The lookup key used inside the NMC exchange-current-density
function. -/
def posMaxKey : String := "Maximum concentration in positive electrode [mol.m-3]"

/-- `graphite_LGM50_electrolyte_exchange_current_density_Chen2020(c_e,
c_s_surf, T)` — exchange-current density for the negative electrode.
`m_ref = 6.48e-7`, `E_r = 35000`; `c_n_max` is looked up by name from the
table at evaluation time, and a failed lookup is the missing-parameter
error `none`. -/
noncomputable def graphite_LGM50_electrolyte_exchange_current_density_Chen2020
    (tbl : List (String × ParamValue)) (c_e c_s_surf T : ℝ) : Option ℝ :=
  let m_ref : ℝ := 6.48e-7
  let E_r : ℝ := 35000
  match lookupConst tbl negMaxKey with
  | some c_n_max =>
      some (m_ref * arrhenius E_r T * c_e ^ (0.5 : ℝ) * c_s_surf ^ (0.5 : ℝ)
        * ((c_n_max : ℝ) - c_s_surf) ^ (0.5 : ℝ))
  | none => none

/-- `nmc_LGM50_electrolyte_exchange_current_density_Chen2020(c_e, c_s_surf,
T)` — exchange-current density for the positive electrode.
`m_ref = 3.42e-6`, `E_r = 17800`; `c_p_max` is looked up by name from the
table at evaluation time, and a failed lookup is the missing-parameter
error `none`. -/
noncomputable def nmc_LGM50_electrolyte_exchange_current_density_Chen2020
    (tbl : List (String × ParamValue)) (c_e c_s_surf T : ℝ) : Option ℝ :=
  let m_ref : ℝ := 3.42e-6
  let E_r : ℝ := 17800
  match lookupConst tbl posMaxKey with
  | some c_p_max =>
      some (m_ref * arrhenius E_r T * c_e ^ (0.5 : ℝ) * c_s_surf ^ (0.5 : ℝ)
        * ((c_p_max : ℝ) - c_s_surf) ^ (0.5 : ℝ))
  | none => none

/-- `graphite_LGM50_ocp_Chen2020(sto)` — LG M50 graphite open-circuit
potential as a function of stoichiometry. -/
noncomputable def graphite_LGM50_ocp_Chen2020 (sto : ℝ) : ℝ :=
  1.9793 * Real.exp (-39.3631 * sto)
    + 0.2482
    - 0.0909 * Real.tanh (29.8538 * (sto - 0.1234))
    - 0.04478 * Real.tanh (14.9159 * (sto - 0.2769))
    - 0.0205 * Real.tanh (30.4444 * (sto - 0.6103))

/-- `nmc_LGM50_ocp_Chen2020(sto)` — LG M50 NMC open-circuit potential as a
function of stoichiometry. -/
noncomputable def nmc_LGM50_ocp_Chen2020 (sto : ℝ) : ℝ :=
  -0.8090 * sto
    + 4.4875
    - 0.0428 * Real.tanh (18.5138 * (sto - 0.5542))
    - 17.7326 * Real.tanh (15.7890 * (sto - 0.3117))
    + 17.5842 * Real.tanh (15.9308 * (sto - 0.3120))

/-- The `parameter_values` table of the source, entry for entry and in the
source's order: parameter names mapped to numeric constants or to the six
correlation functions. -/
def parameter_values : List (String × ParamValue) :=
  [("1 + dlnf/dlnc", ParamValue.const 1.0),
   ("Ambient temperature [K]", ParamValue.const 298.15),
   ("Cation transference number", ParamValue.const 0.2594),
   ("Cell cooling surface area [m2]", ParamValue.const 0.0046),
   ("Cell volume [m3]", ParamValue.const 2.42e-05),
   ("Current function [A]", ParamValue.const 5.0),
   ("Electrode height [m]", ParamValue.const 0.065),
   ("Electrode width [m]", ParamValue.const 1.58),
   ("Electrolyte conductivity [S.m-1]",
     ParamValue.func FuncId.electrolyte_conductivity_Nyman2008),
   ("Electrolyte diffusivity [m2.s-1]",
     ParamValue.func FuncId.electrolyte_diffusivity_Nyman2008),
   ("Initial concentration in electrolyte [mol.m-3]", ParamValue.const 1000.0),
   ("Initial concentration in negative electrode [mol.m-3]",
     ParamValue.const 29866.0),
   ("Initial concentration in positive electrode [mol.m-3]",
     ParamValue.const 17038.0),
   ("Initial temperature [K]", ParamValue.const 298.15),
   ("Lower voltage cut-off [V]", ParamValue.const 2.5),
   ("Maximum concentration in negative electrode [mol.m-3]",
     ParamValue.const 33133.0),
   ("Maximum concentration in positive electrode [mol.m-3]",
     ParamValue.const 63104.0),
   ("Negative current collector conductivity [S.m-1]",
     ParamValue.const 58411000.0),
   ("Negative current collector density [kg.m-3]", ParamValue.const 8960.0),
   ("Negative current collector specific heat capacity [J.kg-1.K-1]",
     ParamValue.const 620.7659832284165),
   ("Negative current collector thermal conductivity [W.m-1.K-1]",
     ParamValue.const 401.0),
   ("Negative current collector thickness [m]", ParamValue.const 1.2e-05),
   ("Negative electrode active material volume fraction",
     ParamValue.const 0.75),
   ("Negative electrode Bruggeman coefficient (electrode)",
     ParamValue.const 1.5),
   ("Negative electrode Bruggeman coefficient (electrolyte)",
     ParamValue.const 1.5),
   ("Negative electrode conductivity [S.m-1]", ParamValue.const 215.0),
   ("Negative electrode density [kg.m-3]", ParamValue.const 1657.0),
   ("Negative electrode diffusivity [m2.s-1]", ParamValue.const 3.3e-14),
   ("Negative electrode electrons in reaction", ParamValue.const 1.0),
   ("Negative electrode exchange-current density [A.m-2]",
     ParamValue.func
       FuncId.graphite_LGM50_electrolyte_exchange_current_density_Chen2020),
   ("Negative electrode OCP [V]",
     ParamValue.func FuncId.graphite_LGM50_ocp_Chen2020),
   ("Negative electrode OCP entropic change [V.K-1]", ParamValue.const 0.0),
   ("Negative electrode porosity", ParamValue.const 0.25),
   ("Negative electrode specific heat capacity [J.kg-1.K-1]",
     ParamValue.const 1128.6654240516666),
   ("Negative electrode thermal conductivity [W.m-1.K-1]",
     ParamValue.const 1.7),
   ("Negative electrode thickness [m]", ParamValue.const 8.52e-05),
   ("Negative particle radius [m]", ParamValue.const 5.86e-06),
   ("Nominal cell capacity [A.h]", ParamValue.const 5.0),
   ("Number of cells connected in series to make a battery",
     ParamValue.const 1.0),
   ("Number of electrodes connected in parallel to make a cell",
     ParamValue.const 1.0),
   ("Positive current collector conductivity [S.m-1]",
     ParamValue.const 36914000.0),
   ("Positive current collector density [kg.m-3]", ParamValue.const 2700.0),
   ("Positive current collector specific heat capacity [J.kg-1.K-1]",
     ParamValue.const 1446.3041219633499),
   ("Positive current collector thermal conductivity [W.m-1.K-1]",
     ParamValue.const 237.0),
   ("Positive current collector thickness [m]", ParamValue.const 1.6e-05),
   ("Positive electrode active material volume fraction",
     ParamValue.const 0.665),
   ("Positive electrode Bruggeman coefficient (electrode)",
     ParamValue.const 1.5),
   ("Positive electrode Bruggeman coefficient (electrolyte)",
     ParamValue.const 1.5),
   ("Positive electrode conductivity [S.m-1]", ParamValue.const 0.18),
   ("Positive electrode density [kg.m-3]", ParamValue.const 3262.0),
   ("Positive electrode diffusivity [m2.s-1]", ParamValue.const 4e-15),
   ("Positive electrode electrons in reaction", ParamValue.const 1.0),
   ("Positive electrode exchange-current density [A.m-2]",
     ParamValue.func
       FuncId.nmc_LGM50_electrolyte_exchange_current_density_Chen2020),
   ("Positive electrode OCP [V]",
     ParamValue.func FuncId.nmc_LGM50_ocp_Chen2020),
   ("Positive electrode OCP entropic change [V.K-1]", ParamValue.const 0.0),
   ("Positive electrode porosity", ParamValue.const 0.335),
   ("Positive electrode specific heat capacity [J.kg-1.K-1]",
     ParamValue.const 1128.6654240516666),
   ("Positive electrode thermal conductivity [W.m-1.K-1]",
     ParamValue.const 2.1),
   ("Positive electrode thickness [m]", ParamValue.const 7.56e-05),
   ("Positive particle radius [m]", ParamValue.const 5.22e-06),
   ("Reference temperature [K]", ParamValue.const 298.15),
   ("Separator Bruggeman coefficient (electrolyte)", ParamValue.const 1.5),
   ("Separator density [kg.m-3]", ParamValue.const 397.0),
   ("Separator porosity", ParamValue.const 0.47),
   ("Separator specific heat capacity [J.kg-1.K-1]",
     ParamValue.const 1128.6654240516666),
   ("Separator thermal conductivity [W.m-1.K-1]", ParamValue.const 0.16),
   ("Separator thickness [m]", ParamValue.const 1.2e-05),
   ("Total heat transfer coefficient [W.m-2.K-1]", ParamValue.const 35),
   ("Typical current [A]", ParamValue.const 5.0),
   ("Typical electrolyte concentration [mol.m-3]", ParamValue.const 1000.0),
   ("Upper voltage cut-off [V]", ParamValue.const 4.4)]

end BpxLgm50

namespace BpxLgm50

/-- The real power `x ** 0.5` of the source coincides with the square
root. -/
theorem rpow_half_eq_sqrt (x : ℝ) : x ^ (0.5 : ℝ) = Real.sqrt x := by
  rw [Real.sqrt_eq_rpow]
  norm_num

/-- C1: each of the two exchange-current-density functions returns
rate × Arrhenius-factor × sqrt(c_e) × sqrt(c_s_surf) ×
sqrt(c_max − c_s_surf), with reference temperature 298.15 K, activation
energy 35000 (negative) resp. 17800 (positive), reference rate constant
6.48e-7 (negative) resp. 3.42e-6 (positive), and c_max the
maximum-concentration parameter looked up by name from the external table
at evaluation time. -/
theorem exchangeCurrentDensity_formula
    (tbl : List (String × ParamValue)) (c_e c_s_surf T : ℝ)
    (c_n_max c_p_max : ℚ)
    (hn : lookupConst tbl negMaxKey = some c_n_max)
    (hp : lookupConst tbl posMaxKey = some c_p_max) :
    graphite_LGM50_electrolyte_exchange_current_density_Chen2020
        tbl c_e c_s_surf T
      = some (6.48e-7 * Real.exp (35000 / R * (1 / 298.15 - 1 / T))
          * Real.sqrt c_e * Real.sqrt c_s_surf
          * Real.sqrt ((c_n_max : ℝ) - c_s_surf))
    ∧ nmc_LGM50_electrolyte_exchange_current_density_Chen2020
        tbl c_e c_s_surf T
      = some (3.42e-6 * Real.exp (17800 / R * (1 / 298.15 - 1 / T))
          * Real.sqrt c_e * Real.sqrt c_s_surf
          * Real.sqrt ((c_p_max : ℝ) - c_s_surf)) := by
  constructor
  · simp only [graphite_LGM50_electrolyte_exchange_current_density_Chen2020,
      hn, arrhenius, rpow_half_eq_sqrt]
  · simp only [nmc_LGM50_electrolyte_exchange_current_density_Chen2020,
      hp, arrhenius, rpow_half_eq_sqrt]

/-- Witness for C1: the formula evaluated against the assembled
`parameter_values` table, at `c_e = 1`, `c_s_surf = 1`, `T = 1`. -/
theorem exchangeCurrentDensity_formula_witness :
    graphite_LGM50_electrolyte_exchange_current_density_Chen2020
        parameter_values 1 1 1
      = some (6.48e-7 * Real.exp (35000 / R * (1 / 298.15 - 1 / 1))
          * Real.sqrt 1 * Real.sqrt 1
          * Real.sqrt (((33133.0 : ℚ) : ℝ) - 1))
    ∧ nmc_LGM50_electrolyte_exchange_current_density_Chen2020
        parameter_values 1 1 1
      = some (3.42e-6 * Real.exp (17800 / R * (1 / 298.15 - 1 / 1))
          * Real.sqrt 1 * Real.sqrt 1
          * Real.sqrt (((63104.0 : ℚ) : ℝ) - 1)) :=
  exchangeCurrentDensity_formula parameter_values 1 1 1 33133.0 63104.0 rfl rfl

/-- C2 (counterexample): the diffusivity at `c_e = 1000` is not
`4.822e-10`; the sum `8.794e-11 − 3.972e-10 + 4.862e-10` stated by the
claim equals `1.7694e-10`, not `4.822e-10`. -/
theorem electrolyte_diffusivity_at_ce1000_ne :
    electrolyte_diffusivity_Nyman2008 1000 298.15 ≠ 4.822e-10 := by
  unfold electrolyte_diffusivity_Nyman2008
  norm_num

/-- C2 (amended): the electrolyte diffusivity function evaluated at
`c_e = 1000` (for any temperature `T`) returns
`8.794e-11 − 3.972e-10 + 4.862e-10 = 1.7694e-10`. -/
theorem electrolyte_diffusivity_at_ce1000 (T : ℝ) :
    electrolyte_diffusivity_Nyman2008 1000 T
      = 8.794e-11 - 3.972e-10 + 4.862e-10
    ∧ electrolyte_diffusivity_Nyman2008 1000 T = 1.7694e-10 := by
  unfold electrolyte_diffusivity_Nyman2008
  norm_num

/-- C3: the electrolyte conductivity function evaluated at `c_e = 1000`
(for any temperature `T`) returns `0.1297 − 2.51 + 3.329 = 0.9487`. -/
theorem electrolyte_conductivity_at_ce1000 (T : ℝ) :
    electrolyte_conductivity_Nyman2008 1000 T = 0.1297 - 2.51 + 3.329
    ∧ electrolyte_conductivity_Nyman2008 1000 T = 0.9487 := by
  unfold electrolyte_conductivity_Nyman2008
  norm_num [Real.one_rpow]

/-- C4: both parameter names looked up internally by the
exchange-current-density functions are present as keys of the assembled
`parameter_values` table. -/
theorem exchange_lookup_keys_present :
    negMaxKey ∈ parameter_values.map Prod.fst
    ∧ posMaxKey ∈ parameter_values.map Prod.fst := by
  decide

/-- C5: an exchange-current-density function evaluates to the
missing-parameter error `none` if and only if resolving its
maximum-concentration key against the supplied table fails; when the
lookup succeeds no substitute is used and a value is returned. -/
theorem exchangeCurrentDensity_none_iff_missing
    (tbl : List (String × ParamValue)) (c_e c_s_surf T : ℝ) :
    (graphite_LGM50_electrolyte_exchange_current_density_Chen2020
        tbl c_e c_s_surf T = none
      ↔ lookupConst tbl negMaxKey = none)
    ∧ (nmc_LGM50_electrolyte_exchange_current_density_Chen2020
        tbl c_e c_s_surf T = none
      ↔ lookupConst tbl posMaxKey = none) := by
  constructor
  · simp only [graphite_LGM50_electrolyte_exchange_current_density_Chen2020]
    rcases h : lookupConst tbl negMaxKey with _ | q <;> simp [h]
  · simp only [nmc_LGM50_electrolyte_exchange_current_density_Chen2020]
    rcases h : lookupConst tbl posMaxKey with _ | q <;> simp [h]

/-- C6: the Arrhenius factor computed inside both
exchange-current-density functions is strictly increasing in the
temperature `T` (for `T > 0`), for both activation energies 35000 and
17800. -/
theorem arrhenius_strictMono_in_T (T1 T2 : ℝ) (h1 : 0 < T1)
    (h12 : T1 < T2) :
    arrhenius 35000 T1 < arrhenius 35000 T2
    ∧ arrhenius 17800 T1 < arrhenius 17800 T2 := by
  have hinv : 1 / T2 < 1 / T1 := one_div_lt_one_div_of_lt h1 h12
  have hsub : 1 / 298.15 - 1 / T1 < 1 / 298.15 - 1 / T2 :=
    sub_lt_sub_left hinv _
  constructor
  · exact Real.exp_lt_exp.mpr (mul_lt_mul_of_pos_left hsub (by norm_num [R]))
  · exact Real.exp_lt_exp.mpr (mul_lt_mul_of_pos_left hsub (by norm_num [R]))

/-- Witness for C6: the Arrhenius factor grows from 298.15 K to 350 K. -/
theorem arrhenius_strictMono_in_T_witness :
    arrhenius 35000 298.15 < arrhenius 35000 350
    ∧ arrhenius 17800 298.15 < arrhenius 17800 350 :=
  arrhenius_strictMono_in_T 298.15 350 (by norm_num) (by norm_num)

/-- C7: the two electrolyte-transport functions accept a temperature
argument but their output does not depend on it. -/
theorem electrolyte_transport_ignores_temperature (c_e T1 T2 : ℝ) :
    electrolyte_diffusivity_Nyman2008 c_e T1
      = electrolyte_diffusivity_Nyman2008 c_e T2
    ∧ electrolyte_conductivity_Nyman2008 c_e T1
      = electrolyte_conductivity_Nyman2008 c_e T2 :=
  ⟨rfl, rfl⟩

/-- C8: each of the six correlation functions is deterministic — two
evaluations at identical inputs (and, for the exchange-current-density
functions, the same parameter table) give identical outputs. -/
theorem correlation_functions_deterministic
    (tbl : List (String × ParamValue)) (c_e c_s_surf T sto : ℝ) :
    electrolyte_diffusivity_Nyman2008 c_e T
      = electrolyte_diffusivity_Nyman2008 c_e T
    ∧ electrolyte_conductivity_Nyman2008 c_e T
      = electrolyte_conductivity_Nyman2008 c_e T
    ∧ graphite_LGM50_electrolyte_exchange_current_density_Chen2020
        tbl c_e c_s_surf T
      = graphite_LGM50_electrolyte_exchange_current_density_Chen2020
        tbl c_e c_s_surf T
    ∧ nmc_LGM50_electrolyte_exchange_current_density_Chen2020
        tbl c_e c_s_surf T
      = nmc_LGM50_electrolyte_exchange_current_density_Chen2020
        tbl c_e c_s_surf T
    ∧ graphite_LGM50_ocp_Chen2020 sto = graphite_LGM50_ocp_Chen2020 sto
    ∧ nmc_LGM50_ocp_Chen2020 sto = nmc_LGM50_ocp_Chen2020 sto :=
  ⟨rfl, rfl, rfl, rfl, rfl, rfl⟩

/-- C9: each of the six correlation functions is registered in the
`parameter_values` table under its corresponding key, and appears exactly
once as a table value. -/
theorem correlation_functions_registered_once :
    ("Electrolyte conductivity [S.m-1]",
        ParamValue.func FuncId.electrolyte_conductivity_Nyman2008)
      ∈ parameter_values
    ∧ ("Electrolyte diffusivity [m2.s-1]",
        ParamValue.func FuncId.electrolyte_diffusivity_Nyman2008)
      ∈ parameter_values
    ∧ ("Negative electrode exchange-current density [A.m-2]",
        ParamValue.func
          FuncId.graphite_LGM50_electrolyte_exchange_current_density_Chen2020)
      ∈ parameter_values
    ∧ ("Negative electrode OCP [V]",
        ParamValue.func FuncId.graphite_LGM50_ocp_Chen2020)
      ∈ parameter_values
    ∧ ("Positive electrode exchange-current density [A.m-2]",
        ParamValue.func
          FuncId.nmc_LGM50_electrolyte_exchange_current_density_Chen2020)
      ∈ parameter_values
    ∧ ("Positive electrode OCP [V]",
        ParamValue.func FuncId.nmc_LGM50_ocp_Chen2020)
      ∈ parameter_values
    ∧ (∀ fid : FuncId,
        parameter_values.countP
          (fun p => decide (p.2 = ParamValue.func fid)) = 1) := by
  refine ⟨by decide, by decide, by decide, by decide, by decide, by decide,
    fun fid => ?_⟩
  cases fid <;> decide

/-- C10: the electrolyte conductivity function returns exactly 0 at zero
concentration for every temperature, since every term of its polynomial
carries a positive power of `c_e`; the diffusivity function instead
returns its constant term `4.862e-10` at zero concentration. -/
theorem electrolyte_conductivity_zero_at_zero (T : ℝ) :
    electrolyte_conductivity_Nyman2008 0 T = 0
    ∧ electrolyte_diffusivity_Nyman2008 0 T = 4.862e-10 := by
  unfold electrolyte_conductivity_Nyman2008 electrolyte_diffusivity_Nyman2008
  norm_num [Real.zero_rpow]

end BpxLgm50
